import Mathlib

/-!
Verification development for the MLB-PostSeason-Calendar repository
(`src/MLB_PostSeason.py` and `src/MLB_API.py`).

The two Python scripts are shallowly embedded below.  Timestamps are
modelled by an inductive of the syntactic shapes the code distinguishes
(`'Z' in s`, `'+' in s or s.count('-') > 2`, `'T' in s`, bare date,
empty), instants by their POSIX epoch second count (`Int`), and the
`pytz` `US/Eastern` zone by the post-2007 United States daylight-saving
rule (EDT from 02:00 local on the second Sunday of March to 02:00 local
on the first Sunday of November, UTC-4; EST = UTC-5 otherwise), which is
the rule in force for every date the scripts process.  Fallible Python
code (statements that can raise) is embedded with `Option`/`Except`.
-/

/-- A naive calendar timestamp: the literal fields of a Python
`datetime` (no timezone). -/
structure DateTime where
  year : Nat
  month : Nat
  day : Nat
  hour : Nat
  minute : Nat
  second : Nat
deriving DecidableEq, Repr

/-- Days since 1970-01-01 of a proleptic-Gregorian civil date
(Howard Hinnant's `days_from_civil`; all divisions have non-negative
operands, so `Int.ediv` matches the original's truncating division). -/
def daysFromCivil (y : Int) (m d : Int) : Int :=
  let y' := if m ≤ 2 then y - 1 else y
  let era := (if 0 ≤ y' then y' else y' - 399).ediv 400
  let yoe := y' - era * 400
  let mp := (m + 9).emod 12
  let doy := (153 * mp + 2).ediv 5 + d - 1
  let doe := yoe * 365 + yoe.ediv 4 - yoe.ediv 100 + doy
  era * 146097 + doe - 719468

/-- Civil date `(year, month, day)` of a count of days since 1970-01-01
(Howard Hinnant's `civil_from_days`). -/
def civilFromDays (z : Int) : Int × Int × Int :=
  let z := z + 719468
  let era := (if 0 ≤ z then z else z - 146096).ediv 146097
  let doe := z - era * 146097
  let yoe := (doe - doe.ediv 1460 + doe.ediv 36524 - doe.ediv 146096).ediv 365
  let y := yoe + era * 400
  let doy := doe - (365 * yoe + yoe.ediv 4 - yoe.ediv 100)
  let mp := (5 * doy + 2).ediv 153
  let d := doy - (153 * mp + 2).ediv 5 + 1
  let m := if mp < 10 then mp + 3 else mp - 9
  (if m ≤ 2 then y + 1 else y, m, d)

/-- Epoch seconds of a naive `DateTime` read as UTC (or, when the fields
denote a wall-clock time in some zone, the "naive epoch" of those
fields). -/
def epochOfDT (dt : DateTime) : Int :=
  daysFromCivil dt.year dt.month dt.day * 86400
    + (dt.hour * 3600 + dt.minute * 60 + dt.second)

/-- `True` for a leap year of the proleptic Gregorian calendar. -/
def isLeap (y : Int) : Bool :=
  (y.emod 4 = 0 && y.emod 100 ≠ 0) || y.emod 400 = 0

/-- Length of a month, as enforced by the `datetime` constructor. -/
def daysInMonth (y : Int) (m : Nat) : Nat :=
  if m = 2 then (if isLeap y then 29 else 28)
  else if m = 4 ∨ m = 6 ∨ m = 9 ∨ m = 11 then 30
  else 31

/-- Field ranges accepted by the Python `datetime` constructor (what
`strptime`/`fromisoformat` enforce before returning a value). -/
def validDT (dt : DateTime) : Bool :=
  1 ≤ dt.year && dt.year ≤ 9999 && 1 ≤ dt.month && dt.month ≤ 12 &&
  1 ≤ dt.day && dt.day ≤ daysInMonth dt.year dt.month &&
  dt.hour ≤ 23 && dt.minute ≤ 59 && dt.second ≤ 59

/-- A valid bare date (the `%Y-%m-%d` case). -/
def validYMD (y m d : Nat) : Bool :=
  validDT ⟨y, m, d, 0, 0, 0⟩

/-- Zero-padded two-digit decimal (strftime `%m`/`%d`/`%H`/`%M`/`%S`). -/
def pad2 (n : Nat) : String :=
  if n < 10 then "0" ++ toString n else toString n

/-- Zero-padded four-digit decimal (strftime `%Y`). -/
def pad4 (n : Nat) : String :=
  if n < 10 then "000" ++ toString n
  else if n < 100 then "00" ++ toString n
  else if n < 1000 then "0" ++ toString n
  else toString n

/-- `strftime('%Y%m%dT%H%M%SZ')` of a UTC instant given as epoch
seconds — the wire form both scripts emit. -/
def icsStamp (z : Int) : String :=
  let days := z.ediv 86400
  let secs := (z.emod 86400).toNat
  let c := civilFromDays days
  pad4 c.1.toNat ++ pad2 c.2.1.toNat ++ pad2 c.2.2.toNat ++ "T" ++
    pad2 (secs / 3600) ++ pad2 (secs % 3600 / 60) ++ pad2 (secs % 60) ++ "Z"

/-- Day count (since 1970-01-01) of the second Sunday of March of a
year; 1970-01-01 was a Thursday, so `(d + 4) mod 7 = 0` means Sunday. -/
def secondSundayMarch (y : Int) : Int :=
  let d1 := daysFromCivil y 3 1
  d1 + (7 - (d1 + 4).emod 7).emod 7 + 7

/-- Day count of the first Sunday of November of a year. -/
def firstSundayNovember (y : Int) : Int :=
  let d1 := daysFromCivil y 11 1
  d1 + (7 - (d1 + 4).emod 7).emod 7

/-- UTC instant at which US daylight saving starts (02:00 EST = 07:00
UTC on the second Sunday of March). -/
def dstStartUTC (y : Int) : Int := secondSundayMarch y * 86400 + 7 * 3600

/-- UTC instant at which US daylight saving ends (02:00 EDT = 06:00 UTC
on the first Sunday of November). -/
def dstEndUTC (y : Int) : Int := firstSundayNovember y * 86400 + 6 * 3600

/-- Year component of the civil date of an epoch instant. -/
def yearOfEpoch (z : Int) : Int := (civilFromDays (z.ediv 86400)).1

/-- Offset (seconds to add to UTC) of `US/Eastern` at a UTC instant:
-4 h during daylight saving, -5 h otherwise (post-2007 US rule, the one
in force for every date the scripts handle). -/
def etOffsetAtUTC (z : Int) : Int :=
  let y := yearOfEpoch z
  if dstStartUTC y ≤ z ∧ z < dstEndUTC y then -4 * 3600 else -5 * 3600

/-- Day count of the `US/Eastern` civil date of a UTC instant — what
`utc_dt.astimezone(et_tz).date()` computes. -/
def easternDateDays (z : Int) : Int := (z + etOffsetAtUTC z).ediv 86400

/-- Offset of `US/Eastern` against a naive wall-clock epoch, as
`pytz`'s `localize` resolves it away from the transition hours: EDT
between 02:00 local on the second Sunday of March and 02:00 local on
the first Sunday of November.  The scripts only localize wall times of
15:08, far from the 01:00–03:00 transition windows, where this rule and
`pytz` agree. -/
def etOffsetAtLocal (naive : Int) : Int :=
  let y := yearOfEpoch naive
  if secondSundayMarch y * 86400 + 2 * 3600 ≤ naive ∧
      naive < firstSundayNovember y * 86400 + 2 * 3600 then
    -4 * 3600
  else
    -5 * 3600

/-- The placeholder instant both heuristic branches of
`MLB_PostSeason.format_game_time` construct: 15:08 `US/Eastern` on the
Eastern civil date of the given UTC instant
(`et_tz.localize(datetime.combine(utc_dt.astimezone(et_tz).date(), time(15, 8)))`),
expressed as a UTC epoch second count. -/
def eastern1508UTC (z : Int) : Int :=
  let naive := easternDateDays z * 86400 + (15 * 3600 + 8 * 60)
  naive - etOffsetAtLocal naive

/-- The syntactic shapes of upstream timestamp strings that the scripts
distinguish, in canonical form.  `zForm` is `YYYY-MM-DDTHH:MM:SSZ`
(contains `'Z'`); `offsetForm` is `YYYY-MM-DDTHH:MM:SS±HH:MM`
(contains `'+'`, or a third `'-'` when negative); `noTzForm` is
`YYYY-MM-DDTHH:MM:SS` (contains `'T'`, two dashes, no `'Z'`/`'+'`);
`dateOnly` is `YYYY-MM-DD`; `empty` is the empty/missing string.
For `offsetForm`, `neg` is the sign of the offset and `offH`/`offM`
its magnitude. -/
inductive GameDateTime where
  | empty : GameDateTime
  | zForm (dt : DateTime) : GameDateTime
  | offsetForm (dt : DateTime) (neg : Bool) (offH offM : Nat) : GameDateTime
  | noTzForm (dt : DateTime) : GameDateTime
  | dateOnly (y m d : Nat) : GameDateTime
deriving DecidableEq, Repr

/-- Offset seconds encoded by an ISO `±HH:MM` suffix. -/
def offSecs (neg : Bool) (offH offM : Nat) : Int :=
  (if neg then -1 else 1) * ((offH : Int) * 3600 + offM * 60)

/-- `fromisoformat` accepts offsets strictly below 24 hours. -/
def validOff (offH offM : Nat) : Bool := offH ≤ 23 && offM ≤ 59

/-- `datetime.strptime(s, "%Y-%m-%dT%H:%M:%SZ")`: succeeds exactly on a
valid Z-suffixed timestamp, raising (`none`) on every other shape. -/
def strptimeZfmt : GameDateTime → Option DateTime
  | .zForm dt => if validDT dt then some dt else none
  | _ => none

/-- `datetime.fromisoformat(s.replace("Z", "+00:00"))`: result given as
the naive epoch of the literal fields together with `some offset` when
the string carried a zone and `none` when the result is naive.  Raises
(`none`) on the empty string or out-of-range fields. -/
def fromisoParse : GameDateTime → Option (Int × Option Int)
  | .empty => none
  | .zForm dt => if validDT dt then some (epochOfDT dt, some 0) else none
  | .offsetForm dt neg offH offM =>
      if validDT dt && validOff offH offM then
        some (epochOfDT dt, some (offSecs neg offH offM))
      else none
  | .noTzForm dt => if validDT dt then some (epochOfDT dt, none) else none
  | .dateOnly y m d =>
      if validYMD y m d then some (daysFromCivil y m d * 86400, none) else none

/-- Python substring test `needle in hay`, on character lists. -/
def listStartsWith : List Char → List Char → Bool
  | [], _ => true
  | _ :: _, [] => false
  | a :: as, b :: bs => a == b && listStartsWith as bs

/-- Auxiliary for `pyIn`: does `needle` occur in `hay`? -/
def occursAt (needle : List Char) : List Char → Bool
  | [] => needle.isEmpty
  | b :: bs => listStartsWith needle (b :: bs) || occursAt needle bs

/-- Python's `needle in hay` on strings. -/
def pyIn (needle hay : String) : Bool := occursAt needle.toList hay.toList

namespace MLB_PostSeason

/-- `any(keyword in team for keyword in ("TBD", "Winner", "Lower", "Higher"))`. -/
def hasPlaceholder (team : String) : Bool :=
  pyIn "TBD" team || pyIn "Winner" team || pyIn "Lower" team || pyIn "Higher" team

/-- The branch structure of `MLBPostseasonUpdater.format_game_time`
(lines 137–211): produces the UTC epoch of `dt_utc` or `none` when the
Python raises (every branch ends with `astimezone(pytz.UTC)`, which
keeps the instant).  The placeholder/empty branch runs
`strptime(game_datetime, "%Y-%m-%dT%H:%M:%SZ")`, which raises on any
non-Z shape (including the empty string); the `'Z'` branch re-applies
the 15:08-Eastern rule when the minute is exactly 33; the offset branch
converts by the literal offset; the bare `'T'` branch assumes UTC; the
date-only branch localizes 15:08 Eastern on that date. -/
def format_game_time_epoch (game_datetime : GameDateTime)
    (away_team home_team : String) : Option Int :=
  if game_datetime = .empty || hasPlaceholder away_team || hasPlaceholder home_team then
    match strptimeZfmt game_datetime with
    | none => none
    | some utc_dt => some (eastern1508UTC (epochOfDT utc_dt))
  else
    match game_datetime with
    | .empty => none
    | .zForm dt =>
        if validDT dt then
          if dt.minute = 33 then some (eastern1508UTC (epochOfDT dt))
          else some (epochOfDT dt)
        else none
    | .offsetForm dt neg offH offM =>
        if validDT dt && validOff offH offM then
          some (epochOfDT dt - offSecs neg offH offM)
        else none
    | .noTzForm dt => if validDT dt then some (epochOfDT dt) else none
    | .dateOnly y m d =>
        if validYMD y m d then
          let naive := daysFromCivil y m d * 86400 + (15 * 3600 + 8 * 60)
          some (naive - etOffsetAtLocal naive)
        else none

/-- `MLBPostseasonUpdater.format_game_time`: the common tail formats
`dt_utc` and `dt_utc + timedelta(hours=3, minutes=30)` as
`%Y%m%dT%H%M%SZ`; `(None, None)` on any parse exception. -/
def format_game_time (game_datetime : GameDateTime)
    (away_team home_team : String) : Option (String × String) :=
  (format_game_time_epoch game_datetime away_team home_team).map
    (fun z => (icsStamp z, icsStamp (z + 12600)))

end MLB_PostSeason

/-- An emitted ICS line, split as (fixed interpolation prefix, variable
remainder); `renderLine` glues them back into exactly the f-string the
Python builds.  Fixed lines carry an empty remainder. -/
abbrev IcsLine := String × String

/-- The text of one modelled line. -/
def renderLine (l : IcsLine) : String := l.1 ++ l.2

/-- The fixed `VCALENDAR` header lines, identical in both scripts. -/
def icsHeaderLines : List IcsLine :=
  [("BEGIN:VCALENDAR", ""),
   ("VERSION:2.0", ""),
   ("PRODID:-//MLB 2025 Postseason Auto-Updated//EN", ""),
   ("CALSCALE:GREGORIAN", ""),
   ("METHOD:PUBLISH", ""),
   ("X-WR-CALNAME:MLB 2025 Postseason", ""),
   ("X-WR-TIMEZONE:UTC", ""),
   ("X-PUBLISHED-TTL:PT1H", "")]

/-- The `VEVENT` block both scripts append per game (a leading blank
line, then the event fields); `uid` is the game id, `dtstamp` the
render-time clock reading. -/
def eventLines (uid dtstamp startT endT summary location description : String) :
    List IcsLine :=
  [("", ""),
   ("BEGIN:VEVENT", ""),
   ("UID:mlb-2025-", uid ++ "@mlb.com"),
   ("DTSTAMP:", dtstamp),
   ("DTSTART:", startT),
   ("DTEND:", endT),
   ("SUMMARY:", summary),
   ("LOCATION:", location),
   ("DESCRIPTION:", description),
   ("STATUS:CONFIRMED", ""),
   ("END:VEVENT", "")]

/-- The closing lines: a blank line, then `END:VCALENDAR`. -/
def icsFooterLines : List IcsLine := [("", ""), ("END:VCALENDAR", "")]

/-- Join modelled lines into the final text, as `"\n".join(ics_lines)`. -/
def renderIcs (lines : List IcsLine) : String :=
  String.intercalate "\n" (lines.map renderLine)

namespace MLB_PostSeason

/-- One raw game as `MLB_PostSeason.py` consumes it: each field holds
the value the corresponding `game.get(key, default)` produces. -/
structure PSGame where
  game_id : String
  game_type : String
  game_date : GameDateTime
  game_datetime : GameDateTime
  status : String
  away_name : String
  home_name : String
  away_score : Int
  home_score : Int
  venue_name : String
  series_description : String
  series_game_number : Int
deriving DecidableEq, Repr

/-- The `type_map.get(game_type, 'Postseason')` lookup. -/
def type_map_get (game_type : String) : String :=
  if game_type = "F" then "WC"
  else if game_type = "D" then "DS"
  else if game_type = "L" then "CS"
  else if game_type = "W" then "WS"
  else "Postseason"

/-- `MLBPostseasonUpdater.get_series_name` (lines 230–259): nested
early returns inside `if series_desc:`, falling through to the trailing
`F`/`W` checks and finally to the mapped name. -/
def get_series_name (game_type : String) (series_desc : String) : String :=
  let series_name := type_map_get game_type
  let fallthrough :=
    if game_type = "F" then "WC"
    else if game_type = "W" then "WS"
    else series_name
  if series_desc ≠ "" then
    if pyIn "American League" series_desc || pyIn "AL" series_desc then
      if game_type = "D" then "ALDS"
      else if game_type = "L" then "ALCS"
      else fallthrough
    else if pyIn "National League" series_desc || pyIn "NL" series_desc then
      if game_type = "D" then "NLDS"
      else if game_type = "L" then "NLCS"
      else fallthrough
    else fallthrough
  else fallthrough

/-- The `special_cases` table of `get_team_location`. -/
def special_cases : List (String × String) :=
  [("Los Angeles Dodgers", "LA Dodgers"),
   ("Los Angeles Angels", "LA Angels"),
   ("New York Yankees", "NY Yankees"),
   ("New York Mets", "NY Mets"),
   ("Chicago White Sox", "Chi White Sox"),
   ("Chicago Cubs", "Chi Cubs"),
   ("San Francisco Giants", "SF Giants"),
   ("San Diego Padres", "San Diego"),
   ("Tampa Bay Rays", "Tampa Bay")]

/-- Python's `str.split()`: split on whitespace runs, dropping empties. -/
def pySplit (s : String) : List String :=
  (s.split Char.isWhitespace).filter (fun w => w ≠ "")

/-- `MLBPostseasonUpdater.get_team_location` (lines 286–320).  The final
`words[0]` raises `IndexError` (`none`) when the name splits to no
words (empty or all-whitespace name not in the table). -/
def get_team_location (full_team_name : String) : Option String :=
  match special_cases.lookup full_team_name with
  | some v => some v
  | none =>
    let words := pySplit full_team_name
    match words with
    | w0 :: w1 :: _ =>
        if w0.toList.getLast? = some '.' then some (w0 ++ " " ++ w1)
        else if hasPlaceholder full_team_name then some full_team_name
        else some w0
    | [w0] =>
        if hasPlaceholder full_team_name then some full_team_name
        else some w0
    | [] =>
        if hasPlaceholder full_team_name then some full_team_name
        else none

/-- `MLBPostseasonUpdater.create_event_summary` (lines 261–284); `none`
models the `IndexError` escaping from `get_team_location`. -/
def create_event_summary (game : PSGame) : Option String :=
  match get_team_location game.away_name, get_team_location game.home_name with
  | some away_team, some home_team =>
      let series_name := get_series_name game.game_type game.series_description
      let game_num := toString game.series_game_number
      if game.status = "Final" ∨ game.status = "Game Over" then
        some ("✓ " ++ series_name ++ " " ++ game_num ++ ": " ++ away_team ++ " "
          ++ toString game.away_score ++ " @ " ++ home_team ++ " "
          ++ toString game.home_score)
      else
        some (series_name ++ " " ++ game_num ++ ": " ++ away_team ++ " @ " ++ home_team)
  | _, _ => none

/-- `MLBPostseasonUpdater.create_event_description` (lines 322–346);
the Python writes literal `\n` two-character sequences into the text. -/
def create_event_description (game : PSGame) : String :=
  let desc_lines :=
    (if game.series_description ≠ "" then
      ["Series: " ++ game.series_description] else []) ++
    ["Game Type: " ++ game.game_type,
     "Status: " ++ game.status,
     "Venue: " ++ game.venue_name] ++
    (if game.status = "Final" ∨ game.status = "Game Over" then
      ["\\nFinal Score:",
       game.away_name ++ ": " ++ toString game.away_score,
       game.home_name ++ ": " ++ toString game.home_score]
     else [])
  String.intercalate "\\n" desc_lines

/-- `game.get('game_datetime') or game.get('game_date')`: the empty
value is falsy, so the second field is the fallback. -/
def effectiveGdt (game : PSGame) : GameDateTime :=
  if game.game_datetime = .empty then game.game_date else game.game_datetime

/-- One iteration of the event loop of
`MLBPostseasonUpdater.generate_ics_content` (lines 365–398): skipped
games contribute no lines (`some []`); an `IndexError` from
`create_event_summary` propagates (`none`), since the loop has no
`try`/`except`. -/
def psGameLines (dtstamp : String) (game : PSGame) : Option (List IcsLine) :=
  if effectiveGdt game = .empty then some []
  else
    match format_game_time (effectiveGdt game) game.away_name game.home_name with
    | none => some []
    | some (startT, endT) =>
        match create_event_summary game with
        | none => none
        | some summary =>
            some (eventLines game.game_id dtstamp startT endT summary
              game.venue_name (create_event_description game))

/-- The event loop over the whole batch. -/
def psAllGameLines (dtstamp : String) : List PSGame → Option (List IcsLine)
  | [] => some []
  | game :: rest =>
      match psGameLines dtstamp game with
      | none => none
      | some ls => (psAllGameLines dtstamp rest).map (fun r => ls ++ r)

/-- `MLBPostseasonUpdater.generate_ics_content` (lines 348–402) as a
line list: header, one block per rendered game, footer.  `dtstamp`
models the `datetime.now(pytz.UTC)` clock reading at render time. -/
def generate_ics_content_lines (dtstamp : String) (games : List PSGame) :
    Option (List IcsLine) :=
  (psAllGameLines dtstamp games).map
    (fun evs => icsHeaderLines ++ evs ++ icsFooterLines)

/-- `MLBPostseasonUpdater.generate_ics_content`: the returned text. -/
def generate_ics_content (dtstamp : String) (games : List PSGame) :
    Option String :=
  (generate_ics_content_lines dtstamp games).map renderIcs

/-- The write step of `MLBPostseasonUpdater.update_ics_file` (lines
446–452): `generate_ics_content` followed by `open`/`write` with no
surrounding `try`/`except`, so any exception — from content generation
or from the filesystem (`writeResult`, supplied by the environment) —
propagates to the caller. -/
def update_ics_file_write (dtstamp : String) (games : List PSGame)
    (writeResult : Except String Unit) : Except String Unit :=
  match generate_ics_content dtstamp games with
  | none => Except.error "IndexError in create_event_summary"
  | some _ => writeResult

end MLB_PostSeason

namespace MLB_API

/-- One team sub-record as `MLB_API.py` reads it: each field holds what
the corresponding chain of `.get(key, default)` calls produces. -/
structure Team where
  abbreviation : String
  shortName : String
  league : String
  wins : Int
  score : String
deriving DecidableEq, Repr

/-- One raw game record as `MLB_API.py` reads it.  `gamesInSeries` is
`none` when the key is missing or its value is not an integer: the code
then holds the `.get` default `{}` (or a non-numeric value), and the
later `gamesInSeries // 2` raises `TypeError`. -/
structure ApiGame where
  gamePk : String
  gameType : String
  statusCode : String
  startTimeTBD : Bool
  gameDate : GameDateTime
  seriesGameNumber : Int
  gamesInSeries : Option Int
  away : Team
  home : Team
  venue : String
deriving DecidableEq, Repr

/-- First character of `game_type` with a `series_type_map` entry
(the `for game_type_char in game_type: ... break` loop). -/
def seriesTypeChar (c : Char) : Option String :=
  if c = 'F' then some "WC"
  else if c = 'D' then some "DS"
  else if c = 'L' then some "CS"
  else if c = 'W' then some "WS"
  else none

/-- The loop over the characters of `game_type`. -/
def seriesTypeOf : List Char → Option String
  | [] => none
  | c :: cs =>
      match seriesTypeChar c with
      | some s => some s
      | none => seriesTypeOf cs

/-- `MLBPostseasonICSMaker.get_series_name` (lines 49–130).  `none`
models the `TypeError` raised by `gamesInSeries // 2` when the field is
missing (defaulted to `{}`) or not an integer; Python's `//` on
integers is floor division (`Int.fdiv`). -/
def get_series_name (game : ApiGame) : Option String :=
  let away_name := game.away.abbreviation
  let home_name := game.home.abbreviation
  let away_name_shortName := game.away.shortName
  let home_name_shortName := game.home.shortName
  let league := game.home.league
  let away_wins := game.away.wins
  let home_wins := game.home.wins
  match game.gamesInSeries with
  | none => none
  | some gamesInSeries =>
    let wins_needed := gamesInSeries.fdiv 2 + 1
    let series_record :=
      if away_wins > home_wins then
        if away_wins ≥ wins_needed then " 🏆️ " ++ away_name_shortName ++ " Wins"
        else "(" ++ toString away_wins ++ "-" ++ toString home_wins ++ ") "
          ++ away_name_shortName ++ " Leads"
      else if home_wins > away_wins then
        if home_wins ≥ wins_needed then " 🏆️ " ++ home_name_shortName ++ " Wins"
        else "(" ++ toString away_wins ++ "-" ++ toString home_wins ++ ") "
          ++ home_name_shortName ++ " Leads"
      else
        "(" ++ toString away_wins ++ "-" ++ toString home_wins ++ ")  Tied "
          ++ away_name ++ "-" ++ home_name
    let is_finished := pyIn "F" game.statusCode
    let team_score :=
      if is_finished then ""
      else away_name_shortName ++ " - " ++ home_name_shortName
    match seriesTypeOf game.gameType.toList with
    | none => some team_score
    | some series_type =>
      let series_pfx :=
        if series_type = "WS" then series_type ++ toString game.seriesGameNumber
        else league ++ series_type ++ toString game.seriesGameNumber
      if is_finished then some (series_pfx ++ series_record ++ " " ++ team_score)
      else some (series_pfx ++ " " ++ team_score)

/-- The instant `MLBPostseasonICSMaker.get_game_date_time` (lines
132–186) formats, or `none` when it returns `("", "")`.  `sysOff`
models the operating system's local timezone as a fixed UTC offset in
seconds: `astimezone` applies it when `fromisoformat` produced a naive
value (`noTzForm`/`dateOnly` inputs); aware values keep their own
offset.  In the `startTimeTBD` branch, `+ timedelta(days=1)` then
`.replace(hour=0, minute=8, second=0, microsecond=0)` act on the
parsed value in its own zone. -/
def get_game_date_time_epoch (sysOff : Int) (game : ApiGame) : Option Int :=
  if game.startTimeTBD then
    if game.gameDate = .empty then none
    else
      match fromisoParse game.gameDate with
      | none => none
      | some (naive, off) =>
          let next_day := naive + 86400
          let next_day_0008 := next_day.ediv 86400 * 86400 + 8 * 60
          some (next_day_0008 - off.getD sysOff)
  else
    if game.gameDate = .empty then none
    else
      match fromisoParse game.gameDate with
      | none => none
      | some (naive, off) => some (naive - off.getD sysOff)

/-- `MLBPostseasonICSMaker.get_game_date_time`: both success paths
format the instant and the instant plus `timedelta(hours=3)` as
`%Y%m%dT%H%M%SZ`; every failure path returns `("", "")`. -/
def get_game_date_time (sysOff : Int) (game : ApiGame) : String × String :=
  match get_game_date_time_epoch sysOff game with
  | none => ("", "")
  | some z => (icsStamp z, icsStamp (z + 10800))

/-- `MLBPostseasonICSMaker.get_description` (lines 188–210). -/
def get_description (game : ApiGame) : String :=
  if pyIn "F" game.statusCode then
    game.away.shortName ++ " " ++ game.away.score ++ " - "
      ++ game.home.shortName ++ " " ++ game.home.score
  else
    game.away.shortName ++ " - " ++ game.home.shortName

/-- The view-model dictionary built by
`MLBPostseasonICSMaker.makeViewModel` (lines 212–226). -/
structure ViewModel where
  game_PK : String
  game_start_time : String
  game_end_time : String
  description : String
  location : String
  summary : String
deriving DecidableEq, Repr

/-- `MLBPostseasonICSMaker.makeViewModel`: the summary is computed
first, so a `TypeError` from `get_series_name` (`none`) propagates
before the times are ever resolved. -/
def makeViewModel (sysOff : Int) (game : ApiGame) : Option ViewModel :=
  match get_series_name game with
  | none => none
  | some summary =>
      let se := get_game_date_time sysOff game
      some ⟨game.gamePk, se.1, se.2, get_description game, game.venue, summary⟩

/-- One iteration of the inner loop of
`MLBPostseasonICSMaker.generate_ics_content` (lines 242–278): a game
whose start or end time is empty is skipped (`some []`); an exception
from `makeViewModel` propagates (`none`) — the loop has no
`try`/`except`. -/
def apiGameLines (sysOff : Int) (dtstamp : String) (game : ApiGame) :
    Option (List IcsLine) :=
  match makeViewModel sysOff game with
  | none => none
  | some vm =>
      if vm.game_start_time = "" ∨ vm.game_end_time = "" then some []
      else
        some (eventLines vm.game_PK dtstamp vm.game_start_time vm.game_end_time
          vm.summary vm.location vm.description)

/-- The inner loop over the games of one date entry. -/
def apiDateLines (sysOff : Int) (dtstamp : String) :
    List ApiGame → Option (List IcsLine)
  | [] => some []
  | game :: rest =>
      match apiGameLines sysOff dtstamp game with
      | none => none
      | some ls => (apiDateLines sysOff dtstamp rest).map (fun r => ls ++ r)

/-- The outer loop over `games_data.get("dates", [])`; each element of
`dates` stands for one date entry's `.get("games", [])` list. -/
def apiAllLines (sysOff : Int) (dtstamp : String) :
    List (List ApiGame) → Option (List IcsLine)
  | [] => some []
  | d :: rest =>
      match apiDateLines sysOff dtstamp d with
      | none => none
      | some ls => (apiAllLines sysOff dtstamp rest).map (fun r => ls ++ r)

/-- `MLBPostseasonICSMaker.generate_ics_content` (lines 228–281) as a
line list; `dtstamp` models the `datetime.now(pytz.UTC)` reading. -/
def generate_ics_content_lines (sysOff : Int) (dtstamp : String)
    (dates : List (List ApiGame)) : Option (List IcsLine) :=
  (apiAllLines sysOff dtstamp dates).map
    (fun evs => icsHeaderLines ++ evs ++ icsFooterLines)

/-- `MLBPostseasonICSMaker.generate_ics_content`: the returned text,
`none` when the Python would raise. -/
def generate_ics_content (sysOff : Int) (dtstamp : String)
    (dates : List (List ApiGame)) : Option String :=
  (generate_ics_content_lines sysOff dtstamp dates).map renderIcs

/-- `MLBPostseasonICSMaker.save_ics_file` (lines 283–312): the whole
body sits in one `try`/`except Exception` that returns `False`.
Content generation runs first; then the file write, whose outcome
(`writeResult`) the environment supplies; any error from either is
caught and reported as the boolean `False`. -/
def save_ics_file (sysOff : Int) (dtstamp : String)
    (dates : List (List ApiGame)) (writeResult : Except String Unit) : Bool :=
  match generate_ics_content sysOff dtstamp dates with
  | none => false
  | some _ =>
      match writeResult with
      | Except.error _ => false
      | Except.ok _ => true

end MLB_API

/-- Python's `s.startswith(pre)` (used to state "begins with"). -/
def pyStartsWith (pre s : String) : Bool := listStartsWith pre.toList s.toList

/-- A formatted `%Y%m%dT%H%M%SZ` stamp is never the empty string. -/
lemma icsStamp_ne (z : Int) : icsStamp z ≠ "" := by
  intro h
  have h2 := congrArg String.length h
  simp [icsStamp, String.length_append] at h2
  exact absurd h2.2 (by decide)

/-- Replace the variable part of a `DTSTAMP` line with the empty
string, leaving every other line untouched: two renders agree after
this masking exactly when they are identical on every line except the
`DTSTAMP` lines. -/
def maskDtstamp (l : IcsLine) : IcsLine :=
  if l.1 = "DTSTAMP:" then ("DTSTAMP:", "") else l

lemma mask_eventLines (uid dtstamp s e sm loc de : String) :
    List.map maskDtstamp (eventLines uid dtstamp s e sm loc de) =
      eventLines uid "" s e sm loc de := rfl

lemma mask_header : List.map maskDtstamp icsHeaderLines = icsHeaderLines := rfl

lemma mask_footer : List.map maskDtstamp icsFooterLines = icsFooterLines := rfl

lemma option_mask_append {ls1 ls2 : List IcsLine} {o1 o2 : Option (List IcsLine)}
    (hl : List.map maskDtstamp ls1 = List.map maskDtstamp ls2)
    (ho : o1.map (List.map maskDtstamp) = o2.map (List.map maskDtstamp)) :
    (o1.map (fun r => ls1 ++ r)).map (List.map maskDtstamp) =
      (o2.map (fun r => ls2 ++ r)).map (List.map maskDtstamp) := by
  cases o1 with
  | none =>
      cases o2 with
      | none => rfl
      | some r2 => simp at ho
  | some r1 =>
      cases o2 with
      | none => simp at ho
      | some r2 =>
          simp only [Option.map_some'] at ho ⊢
          simp only [Option.some_inj] at ho
          simp [List.map_append, hl, ho]

lemma option_mask_envelope {o1 o2 : Option (List IcsLine)}
    (ho : o1.map (List.map maskDtstamp) = o2.map (List.map maskDtstamp)) :
    (o1.map (fun evs => icsHeaderLines ++ evs ++ icsFooterLines)).map (List.map maskDtstamp) =
      (o2.map (fun evs => icsHeaderLines ++ evs ++ icsFooterLines)).map (List.map maskDtstamp) := by
  cases o1 with
  | none =>
      cases o2 with
      | none => rfl
      | some r2 => simp at ho
  | some r1 =>
      cases o2 with
      | none => simp at ho
      | some r2 =>
          simp only [Option.map_some', Option.some_inj] at ho ⊢
          simp [List.map_append, mask_header, mask_footer, ho]

namespace MLB_PostSeason

/-- A game whose time the resolver settles; games failing this test are
skipped by the event loop. -/
def psTimeResolved (g : PSGame) : Bool :=
  (format_game_time (effectiveGdt g) g.away_name g.home_name).isSome

lemma psGameLines_skip (dtstamp : String) (g : PSGame)
    (h : psTimeResolved g = false) :
    psGameLines dtstamp g = some [] := by
  unfold psGameLines
  by_cases hgdt : effectiveGdt g = GameDateTime.empty
  · simp [hgdt]
  · have hfmt : format_game_time (effectiveGdt g) g.away_name g.home_name = none := by
      unfold psTimeResolved at h
      exact Option.not_isSome_iff_eq_none.mp (by simp [h])
    simp [hgdt, hfmt]

lemma psAllGameLines_filter (dtstamp : String) (games : List PSGame) :
    psAllGameLines dtstamp games =
      psAllGameLines dtstamp (games.filter psTimeResolved) := by
  induction games with
  | nil => rfl
  | cons g rest ih =>
      by_cases hg : psTimeResolved g = true
      · simp only [List.filter_cons, hg, if_true, psAllGameLines, ih]
      · have hsk := psGameLines_skip dtstamp g (by simpa using hg)
        simp only [List.filter_cons, hg, if_false, psAllGameLines, hsk, ih]
        simp

lemma psGameLines_mask (d1 d2 : String) (g : PSGame) :
    (psGameLines d1 g).map (List.map maskDtstamp) =
      (psGameLines d2 g).map (List.map maskDtstamp) := by
  unfold psGameLines
  by_cases hgdt : effectiveGdt g = GameDateTime.empty
  · simp [hgdt]
  · simp only [hgdt, if_false]
    cases format_game_time (effectiveGdt g) g.away_name g.home_name with
    | none => rfl
    | some p =>
        cases p with
        | mk s e =>
            cases create_event_summary g with
            | none => rfl
            | some sm => simp [mask_eventLines]

lemma psAllGameLines_mask (d1 d2 : String) (games : List PSGame) :
    (psAllGameLines d1 games).map (List.map maskDtstamp) =
      (psAllGameLines d2 games).map (List.map maskDtstamp) := by
  induction games with
  | nil => rfl
  | cons g rest ih =>
      have hg := psGameLines_mask d1 d2 g
      cases h1 : psGameLines d1 g with
      | none =>
          cases h2 : psGameLines d2 g with
          | none => simp only [psAllGameLines, h1, h2]
          | some ls2 => rw [h1, h2] at hg; simp at hg
      | some ls1 =>
          cases h2 : psGameLines d2 g with
          | none => rw [h1, h2] at hg; simp at hg
          | some ls2 =>
              rw [h1, h2] at hg
              simp only [Option.map_some', Option.some_inj] at hg
              simp only [psAllGameLines, h1, h2]
              exact option_mask_append hg ih

end MLB_PostSeason

namespace MLB_API

/-- A game whose time the resolver settles (the formatted pair is
non-empty); games failing this test are skipped by the event loop. -/
def apiTimeResolved (sysOff : Int) (g : ApiGame) : Bool :=
  (get_game_date_time_epoch sysOff g).isSome

lemma get_series_name_isSome (g : ApiGame) :
    (get_series_name g).isSome = g.gamesInSeries.isSome := by
  cases h : g.gamesInSeries with
  | none => simp [get_series_name, h]
  | some n =>
      simp only [get_series_name, h, Option.isSome_some]
      cases seriesTypeOf g.gameType.toList <;> simp
      split <;> simp

lemma makeViewModel_isSome (sysOff : Int) (g : ApiGame) :
    (makeViewModel sysOff g).isSome = g.gamesInSeries.isSome := by
  rw [← get_series_name_isSome]
  cases h : get_series_name g <;> simp [makeViewModel, h]

lemma apiGameLines_none_iff (sysOff : Int) (dtstamp : String) (g : ApiGame) :
    (apiGameLines sysOff dtstamp g = none) ↔ g.gamesInSeries = none := by
  have h := makeViewModel_isSome sysOff g
  cases hvm : makeViewModel sysOff g <;>
    cases hgis : g.gamesInSeries <;>
      simp_all [apiGameLines]
  split <;> simp

lemma apiDateLines_isSome (sysOff : Int) (dtstamp : String) (games : List ApiGame) :
    (apiDateLines sysOff dtstamp games).isSome =
      games.all (fun g => g.gamesInSeries.isSome) := by
  induction games with
  | nil => simp [apiDateLines]
  | cons g rest ih =>
      simp only [apiDateLines, List.all_cons]
      cases hg : apiGameLines sysOff dtstamp g with
      | none =>
          have := (apiGameLines_none_iff sysOff dtstamp g).mp hg
          simp [this]
      | some ls =>
          have hne : ¬ g.gamesInSeries = none := by
            intro hn
            exact absurd hg (by simp [(apiGameLines_none_iff sysOff dtstamp g).mpr hn])
          cases hgis : g.gamesInSeries with
          | none => exact absurd hgis hne
          | some n => simp [← ih]

lemma apiGameLines_skip (sysOff : Int) (dtstamp : String) (g : ApiGame)
    (hs : g.gamesInSeries.isSome = true)
    (ht : apiTimeResolved sysOff g = false) :
    apiGameLines sysOff dtstamp g = some [] := by
  have hz : get_game_date_time_epoch sysOff g = none := by
    unfold apiTimeResolved at ht
    exact Option.not_isSome_iff_eq_none.mp (by simp [ht])
  have hgdt : get_game_date_time sysOff g = ("", "") := by
    unfold get_game_date_time
    rw [hz]
  obtain ⟨s, hgs⟩ := Option.isSome_iff_exists.mp
    ((get_series_name_isSome g).symm ▸ hs)
  unfold apiGameLines makeViewModel
  rw [hgs, hgdt]
  simp

lemma apiDateLines_filter (sysOff : Int) (dtstamp : String) (games : List ApiGame)
    (h : ∀ g ∈ games, g.gamesInSeries.isSome = true) :
    apiDateLines sysOff dtstamp games =
      apiDateLines sysOff dtstamp (games.filter (apiTimeResolved sysOff)) := by
  induction games with
  | nil => rfl
  | cons g rest ih =>
      have hrest : ∀ gg ∈ rest, gg.gamesInSeries.isSome = true :=
        fun gg hgg => h gg (List.mem_cons_of_mem g hgg)
      by_cases hg : apiTimeResolved sysOff g = true
      · simp only [List.filter_cons, hg, if_true, apiDateLines, ih hrest]
      · have hsk := apiGameLines_skip sysOff dtstamp g (h g (List.mem_cons_self g rest))
          (by simpa using hg)
        simp only [List.filter_cons, hg, if_false, apiDateLines, hsk, ih hrest]
        simp

lemma apiAllLines_filter (sysOff : Int) (dtstamp : String)
    (dates : List (List ApiGame))
    (h : ∀ d ∈ dates, ∀ g ∈ d, g.gamesInSeries.isSome = true) :
    apiAllLines sysOff dtstamp dates =
      apiAllLines sysOff dtstamp
        (dates.map (fun d => d.filter (apiTimeResolved sysOff))) := by
  induction dates with
  | nil => rfl
  | cons d rest ih =>
      have hd := apiDateLines_filter sysOff dtstamp d (h d (List.mem_cons_self d rest))
      have hrest : ∀ dd ∈ rest, ∀ g ∈ dd, g.gamesInSeries.isSome = true :=
        fun dd hdd => h dd (List.mem_cons_of_mem d hdd)
      simp only [List.map_cons, apiAllLines, ← hd, ih hrest]

lemma apiGameLines_mask (sysOff : Int) (d1 d2 : String) (g : ApiGame) :
    (apiGameLines sysOff d1 g).map (List.map maskDtstamp) =
      (apiGameLines sysOff d2 g).map (List.map maskDtstamp) := by
  unfold apiGameLines
  cases makeViewModel sysOff g with
  | none => rfl
  | some vm =>
      by_cases hskip : vm.game_start_time = "" ∨ vm.game_end_time = ""
      · simp [hskip]
      · simp [hskip, mask_eventLines]

lemma apiDateLines_mask (sysOff : Int) (d1 d2 : String) (games : List ApiGame) :
    (apiDateLines sysOff d1 games).map (List.map maskDtstamp) =
      (apiDateLines sysOff d2 games).map (List.map maskDtstamp) := by
  induction games with
  | nil => rfl
  | cons g rest ih =>
      have hg := apiGameLines_mask sysOff d1 d2 g
      cases h1 : apiGameLines sysOff d1 g with
      | none =>
          cases h2 : apiGameLines sysOff d2 g with
          | none => simp only [apiDateLines, h1, h2]
          | some ls2 => rw [h1, h2] at hg; simp at hg
      | some ls1 =>
          cases h2 : apiGameLines sysOff d2 g with
          | none => rw [h1, h2] at hg; simp at hg
          | some ls2 =>
              rw [h1, h2] at hg
              simp only [Option.map_some', Option.some_inj] at hg
              simp only [apiDateLines, h1, h2]
              exact option_mask_append hg ih

lemma apiAllLines_mask (sysOff : Int) (d1 d2 : String) (dates : List (List ApiGame)) :
    (apiAllLines sysOff d1 dates).map (List.map maskDtstamp) =
      (apiAllLines sysOff d2 dates).map (List.map maskDtstamp) := by
  induction dates with
  | nil => rfl
  | cons d rest ih =>
      have hd := apiDateLines_mask sysOff d1 d2 d
      cases h1 : apiDateLines sysOff d1 d with
      | none =>
          cases h2 : apiDateLines sysOff d2 d with
          | none => simp only [apiAllLines, h1, h2]
          | some ls2 => rw [h1, h2] at hd; simp at hd
      | some ls1 =>
          cases h2 : apiDateLines sysOff d2 d with
          | none => rw [h1, h2] at hd; simp at hd
          | some ls2 =>
              rw [h1, h2] at hd
              simp only [Option.map_some', Option.some_inj] at hd
              simp only [apiAllLines, h1, h2]
              exact option_mask_append hd ih

/-- The away team of the spec's worked example: short name `Seattle`,
series record 2 wins. -/
def exampleAway : Team := ⟨"SEA", "Seattle", "AL", 2, "5"⟩

/-- The home team of the spec's worked example: short name `Detroit`,
series record 1 win; its league abbreviation `AL` is the one
`get_series_name` reads. -/
def exampleHome : Team := ⟨"DET", "Detroit", "AL", 1, "3"⟩

/-- The raw game of the spec's worked example: `gameDate`
`2025-10-15T23:08:00Z`, game type `D`, series game number 3,
`gamesInSeries` 5, away 2 wins / home 1 win, both teams determined.
The fields the example leaves unspecified keep the code's `.get`
defaults: status code `""` and `startTimeTBD = False`. -/
def exampleGame : ApiGame :=
  ⟨"775302", "D", "", false, .zForm ⟨2025, 10, 15, 23, 8, 0⟩, 3, some 5,
    exampleAway, exampleHome, "T-Mobile Park"⟩

/-- The worked example with a finished status code (`F`). -/
def exampleGameFinal : ApiGame := { exampleGame with statusCode := "F" }

/-- A record with `gamesInSeries` missing: the code's default `{}`
makes `gamesInSeries // 2` raise `TypeError`. -/
def exampleGameNoSeries : ApiGame :=
  { exampleGameFinal with gamePk := "999999", gamesInSeries := none }

/-- An undetermined-start game whose `gameDate` carries the `-04:00`
offset: `2025-10-24T22:00:00-04:00` (02:00 UTC on October 25). -/
def exampleGameTbdOffset : ApiGame :=
  { exampleGameFinal with
      startTimeTBD := true
      gameDate := .offsetForm ⟨2025, 10, 24, 22, 0, 0⟩ true 4 0 }

/-- An undetermined-start game with a Z-suffixed `gameDate`. -/
def exampleGameTbdZ : ApiGame :=
  { exampleGameFinal with
      startTimeTBD := true
      gameDate := .zForm ⟨2025, 10, 24, 7, 33, 0⟩ }

/-- The same start-time data as `exampleGameTbdZ` with different team
and venue fields. -/
def exampleGameTbdZOther : ApiGame :=
  { exampleGameTbdZ with
      venue := "Elsewhere Park"
      away := exampleHome
      home := exampleAway }

/-- A game whose time cannot be resolved (empty `gameDate`) but whose
other fields are unexceptional. -/
def exampleGameNoDate : ApiGame :=
  { exampleGameFinal with gamePk := "888888", gameDate := .empty }

/-- A game with an empty `gameDate` and a missing `gamesInSeries`. -/
def exampleGameNoDateNoSeries : ApiGame :=
  { exampleGameNoDate with gamesInSeries := none }

end MLB_API

/-- A `MLB_PostSeason.py` game whose timestamp fields are both empty. -/
def psNoDatetime : MLB_PostSeason.PSGame :=
  ⟨"100001", "D", .empty, .empty, "Scheduled", "Athletics", "Cleveland Guardians",
    0, 0, "Progressive Field", "", 1⟩

/-- The instant claim C9 describes: 00:08:00 UTC on the UTC calendar
day after the given instant. -/
def nextDay0008 (z : Int) : Int := (z.ediv 86400 + 1) * 86400 + 8 * 60

/-- Claim C1: for every raw game whose timestamp is a (valid)
Z-suffixed UTC string with minute component exactly 33, the time
resolver returns the placeholder start — 15:08 `US/Eastern` on the
Eastern civil date of that UTC instant, converted to UTC and formatted
as `YYYYMMDDTHHMMSSZ` — regardless of the original hour and of the team
names: when the names carry a placeholder marker the first heuristic
branch fires, and otherwise the minute-33 branch fires, both building
the same instant.  (The end is the placeholder plus 3 h 30 min.) -/
theorem claim1_minute33_eastern_placeholder (dt : DateTime) (away home : String)
    (hv : validDT dt = true) (hm : dt.minute = 33) :
    MLB_PostSeason.format_game_time (.zForm dt) away home =
      some (icsStamp (eastern1508UTC (epochOfDT dt)),
            icsStamp (eastern1508UTC (epochOfDT dt) + 12600)) := by
  simp only [MLB_PostSeason.format_game_time, MLB_PostSeason.format_game_time_epoch]
  split
  · simp [strptimeZfmt, hv]
  · simp [hv, hm]

/-- Claim C1 witness: `2025-10-24T07:33:00Z` resolves to 15:08 EDT on
October 24 = 19:08 UTC, whatever the (fully determined) team names. -/
theorem claim1_minute33_eastern_placeholder_witness :
    MLB_PostSeason.format_game_time (.zForm ⟨2025, 10, 24, 7, 33, 0⟩)
        "Toronto Blue Jays" "Seattle Mariners" =
      some ("20251024T190800Z", "20251024T223800Z") :=
  (claim1_minute33_eastern_placeholder ⟨2025, 10, 24, 7, 33, 0⟩
    "Toronto Blue Jays" "Seattle Mariners" (by decide) rfl).trans (by decide)

/-- Claim C2 counterexample: the claim asserts that a placeholder-team
game gets the 15:08 Eastern start for every timestamp shape the
resolver otherwise accepts, bare dates included.  But the placeholder
branch parses with `strptime(s, "%Y-%m-%dT%H:%M:%SZ")`, which raises on
a bare date, so the resolver returns `(None, None)` — not a 15:08
placeholder — for the bare date `2025-10-20` with away team `TBD`. -/
theorem claim2_placeholder_nonZ_counterexample :
    MLB_PostSeason.format_game_time (.dateOnly 2025 10 20) "TBD" "Boston Red Sox" =
      none := by decide

/-- Claim C2 (amended): when either team name carries a placeholder
marker (`TBD`, `Winner`, `Lower`, `Higher`), the resolver returns the
15:08 Eastern placeholder start (converted to UTC, end = +3 h 30 min)
when the timestamp is a valid Z-suffixed UTC string, and `(None, None)`
for every other shape — offset form, naive form, bare date, or empty —
because the placeholder branch's `strptime` accepts only the Z form. -/
theorem claim2_placeholder_resolution_amended (g : GameDateTime) (away home : String)
    (hp : (MLB_PostSeason.hasPlaceholder away || MLB_PostSeason.hasPlaceholder home) = true) :
    MLB_PostSeason.format_game_time g away home =
      (match g with
       | .zForm dt =>
          if validDT dt then
            some (icsStamp (eastern1508UTC (epochOfDT dt)),
                  icsStamp (eastern1508UTC (epochOfDT dt) + 12600))
          else none
       | _ => none) := by
  have hcond : (decide (g = GameDateTime.empty) || MLB_PostSeason.hasPlaceholder away
      || MLB_PostSeason.hasPlaceholder home) = true := by
    rcases Bool.or_eq_true_iff.mp hp with h | h <;> simp [h]
  simp only [MLB_PostSeason.format_game_time, MLB_PostSeason.format_game_time_epoch, hcond]
  cases g with
  | zForm dt =>
      rcases Bool.eq_false_or_eq_true (validDT dt) with h | h <;>
        simp [strptimeZfmt, h]
  | empty => simp [strptimeZfmt]
  | offsetForm dt neg offH offM => simp [strptimeZfmt]
  | noTzForm dt => simp [strptimeZfmt]
  | dateOnly y m d => simp [strptimeZfmt]

/-- Claim C2 witness: the spec's own example — `TBD` against
`Boston Red Sox` with `2025-10-20T13:08:00Z` — resolves to 15:08 EDT
October 20 = 19:08 UTC, per the amended rule. -/
theorem claim2_placeholder_resolution_amended_witness :
    MLB_PostSeason.format_game_time (.zForm ⟨2025, 10, 20, 13, 8, 0⟩)
        "TBD" "Boston Red Sox" =
      some ("20251020T190800Z", "20251020T223800Z") :=
  (claim2_placeholder_resolution_amended (.zForm ⟨2025, 10, 20, 13, 8, 0⟩)
    "TBD" "Boston Red Sox" (by decide)).trans (by decide)

/-- Claim C3 counterexample: the worked example leaves the game's
status unspecified, so it keeps the code's default status code `""`.
Then `is_finished` is false and `get_series_name` returns
`ALDS3 Seattle - Detroit` with no series record: the summary does not
contain `(2-1)` (nor a `Leads` marker), contradicting the claim. -/
theorem claim3_example_unfinished_counterexample :
    MLB_API.get_series_name MLB_API.exampleGame = some "ALDS3 Seattle - Detroit" ∧
    pyIn "(2-1)" "ALDS3 Seattle - Detroit" = false := by decide

/-- Claim C3 (amended): for the spec's worked example with a finished
status code (one containing `F`), the summary is
`ALDS3(2-1) Seattle Leads ` — it begins with `ALDS3`, contains `(2-1)`
and a `Leads` marker with the away team's short name — and the
resolved times are `DTSTART 20251015T230800Z` /
`DTEND 20251016T020800Z` (the 3-hour variant), for any system
timezone. -/
theorem claim3_example_final_amended (sysOff : Int) :
    MLB_API.get_series_name MLB_API.exampleGameFinal =
      some "ALDS3(2-1) Seattle Leads " ∧
    pyStartsWith "ALDS3" "ALDS3(2-1) Seattle Leads " = true ∧
    pyIn "(2-1)" "ALDS3(2-1) Seattle Leads " = true ∧
    pyIn "Seattle Leads" "ALDS3(2-1) Seattle Leads " = true ∧
    MLB_API.get_game_date_time sysOff MLB_API.exampleGameFinal =
      ("20251015T230800Z", "20251016T020800Z") := by
  refine ⟨by decide, by decide, by decide, by decide, ?_⟩
  have h : MLB_API.get_game_date_time_epoch sysOff MLB_API.exampleGameFinal =
      some 1760569680 := rfl
  simp [MLB_API.get_game_date_time, h]
  decide

/-- Claim C4 counterexample: a batch holding one well-formed game and
one game whose `gamesInSeries` is missing.  The claim says the bad
record is skipped and a calendar with the good game's event is still
produced; in fact the `TypeError` raised inside `get_series_name`
propagates out of `generate_ics_content` (no per-record `try`), so no
calendar is produced at all — while the same batch without the bad
record renders fine. -/
theorem claim4_series_error_counterexample :
    MLB_API.generate_ics_content 0 "20251001T120000Z"
      [[MLB_API.exampleGameFinal, MLB_API.exampleGameNoSeries]] = none ∧
    (MLB_API.generate_ics_content 0 "20251001T120000Z"
      [[MLB_API.exampleGameFinal]]).isSome = true := by
  constructor
  · decide
  · decide

/-- Claim C4 (amended): timestamp failures are confined to the record
(`get_game_date_time` catches them and the loop skips the record), but
an error in summary construction is not: `generate_ics_content`
produces a calendar exactly when every record of the batch carries an
integer `gamesInSeries`; one missing or non-integer field aborts the
whole batch. -/
theorem claim4_series_error_amended (sysOff : Int) (dtstamp : String)
    (dates : List (List MLB_API.ApiGame)) :
    (MLB_API.generate_ics_content sysOff dtstamp dates).isSome =
      dates.all (fun d => d.all (fun g => g.gamesInSeries.isSome)) := by
  simp only [MLB_API.generate_ics_content, MLB_API.generate_ics_content_lines,
    Option.isSome_map]
  induction dates with
  | nil => simp [MLB_API.apiAllLines]
  | cons d rest ih =>
      simp only [MLB_API.apiAllLines, List.all_cons]
      cases hd : MLB_API.apiDateLines sysOff dtstamp d with
      | none =>
          have h := MLB_API.apiDateLines_isSome sysOff dtstamp d
          rw [hd] at h
          simp [← h]
      | some ls =>
          have h := MLB_API.apiDateLines_isSome sysOff dtstamp d
          rw [hd] at h
          simp [← h, ← ih]

/-- Claim C5: whenever either variant's time resolver produces a
result, the pair is a start instant and that instant plus one fixed
duration — 3 h 30 min (12600 s) in the `MLB_PostSeason` variant and
3 h (10800 s) in the `MLB_API` variant — so the end-minus-start
difference is the same constant for every event a renderer invocation
emits. -/
theorem claim5_fixed_duration :
    (∀ gdt away home s e,
        MLB_PostSeason.format_game_time gdt away home = some (s, e) →
        ∃ z, s = icsStamp z ∧ e = icsStamp (z + 12600)) ∧
    (∀ sysOff g s e,
        MLB_API.get_game_date_time sysOff g = (s, e) → s ≠ "" →
        ∃ z, s = icsStamp z ∧ e = icsStamp (z + 10800)) := by
  constructor
  · intro gdt away home s e h
    unfold MLB_PostSeason.format_game_time at h
    cases hz : MLB_PostSeason.format_game_time_epoch gdt away home with
    | none => rw [hz] at h; simp at h
    | some z =>
        rw [hz] at h
        simp at h
        exact ⟨z, h.1.symm, h.2.symm⟩
  · intro sysOff g s e h hne
    unfold MLB_API.get_game_date_time at h
    cases hz : MLB_API.get_game_date_time_epoch sysOff g with
    | none =>
        rw [hz] at h
        simp at h
        exact absurd h.1.symm hne
    | some z =>
        rw [hz] at h
        simp at h
        exact ⟨z, h.1.symm, h.2.symm⟩

/-- Claim C5 witness: the worked example's timestamp under each
variant — ends 3 h 30 min and 3 h after the same start. -/
theorem claim5_fixed_duration_witness :
    (∃ z, "20251015T230800Z" = icsStamp z ∧ "20251016T023800Z" = icsStamp (z + 12600)) ∧
    (∃ z, "20251015T230800Z" = icsStamp z ∧ "20251016T020800Z" = icsStamp (z + 10800)) :=
  ⟨claim5_fixed_duration.1 (.zForm ⟨2025, 10, 15, 23, 8, 0⟩)
      "Toronto Blue Jays" "Boston Red Sox"
      "20251015T230800Z" "20251016T023800Z" (by decide),
   claim5_fixed_duration.2 0 MLB_API.exampleGameFinal
      "20251015T230800Z" "20251016T020800Z" (by decide) (by decide)⟩

/-- Claim C6 counterexample: a batch whose only game has an empty
timestamp and also a missing `gamesInSeries`.  The claim says the game
is dropped and the run still succeeds; in the `MLB_API` variant the
summary is built before the time check, so the `TypeError` aborts the
whole render and no calendar is produced. -/
theorem claim6_unresolved_plus_series_error_counterexample :
    MLB_API.generate_ics_content 0 "20251001T120000Z"
      [[MLB_API.exampleGameNoDateNoSeries]] = none := by decide

/-- Claim C6 (amended): a game whose timestamp is empty or whose time
resolution fails contributes no `VEVENT` — rendering the batch equals
rendering the batch with such games removed — unconditionally in the
`MLB_PostSeason` variant, and in the `MLB_API` variant provided every
record's summary construction succeeds (integer `gamesInSeries`),
since there the summary is built before the time check and its error
aborts the batch.  Start and end are always both present or both
absent: a formatted stamp is never the empty string. -/
theorem claim6_unresolved_dropped_amended (dtstamp : String)
    (games : List MLB_PostSeason.PSGame) (sysOff : Int)
    (dates : List (List MLB_API.ApiGame)) (g : MLB_API.ApiGame)
    (hall : ∀ d ∈ dates, ∀ gg ∈ d, gg.gamesInSeries.isSome = true) :
    MLB_PostSeason.generate_ics_content dtstamp games =
      MLB_PostSeason.generate_ics_content dtstamp
        (games.filter MLB_PostSeason.psTimeResolved) ∧
    MLB_API.generate_ics_content sysOff dtstamp dates =
      MLB_API.generate_ics_content sysOff dtstamp
        (dates.map (fun d => d.filter (MLB_API.apiTimeResolved sysOff))) ∧
    ((MLB_API.get_game_date_time sysOff g).1 = "" ↔
      (MLB_API.get_game_date_time sysOff g).2 = "") := by
  refine ⟨?_, ?_, ?_⟩
  · unfold MLB_PostSeason.generate_ics_content MLB_PostSeason.generate_ics_content_lines
    rw [MLB_PostSeason.psAllGameLines_filter]
  · unfold MLB_API.generate_ics_content MLB_API.generate_ics_content_lines
    rw [MLB_API.apiAllLines_filter sysOff dtstamp dates hall]
  · unfold MLB_API.get_game_date_time
    cases MLB_API.get_game_date_time_epoch sysOff g with
    | none => simp
    | some z =>
        simp only
        constructor
        · intro h; exact absurd h (icsStamp_ne z)
        · intro h; exact absurd h (icsStamp_ne (z + 10800))

/-- Claim C6 witness: one no-timestamp game per variant — each batch
renders the same as the batch with the game filtered out. -/
theorem claim6_unresolved_dropped_amended_witness :
    (MLB_PostSeason.generate_ics_content "20251001T120000Z" [psNoDatetime] =
      MLB_PostSeason.generate_ics_content "20251001T120000Z"
        ([psNoDatetime].filter MLB_PostSeason.psTimeResolved)) ∧
    (MLB_API.generate_ics_content 0 "20251001T120000Z" [[MLB_API.exampleGameNoDate]] =
      MLB_API.generate_ics_content 0 "20251001T120000Z"
        ([[MLB_API.exampleGameNoDate]].map
          (fun d => d.filter (MLB_API.apiTimeResolved 0)))) ∧
    ((MLB_API.get_game_date_time 0 MLB_API.exampleGameNoDate).1 = "" ↔
      (MLB_API.get_game_date_time 0 MLB_API.exampleGameNoDate).2 = "") :=
  claim6_unresolved_dropped_amended "20251001T120000Z" [psNoDatetime] 0
    [[MLB_API.exampleGameNoDate]] MLB_API.exampleGameNoDate (by decide)

/-- Claim C7 counterexample: the claim asserts both variants turn a
filesystem error during the write into a logged boolean failure.  The
`MLB_PostSeason` write step (`open`/`write` in `update_ics_file`) has
no `try`/`except`: the error propagates to the caller unchanged —
`main` and `watch_mode` do not catch it either, so the process
crashes. -/
theorem claim7_write_error_propagates_counterexample :
    MLB_PostSeason.update_ics_file_write "20251001T120000Z" []
      (Except.error "disk full") = Except.error "disk full" := rfl

/-- Claim C7 (amended): in the `MLB_API` variant, `save_ics_file`
catches any error of the write (and of content generation) and returns
`False` to its caller; in the `MLB_PostSeason` variant the write step
of `update_ics_file` propagates the filesystem error as an exception
(whenever content generation itself succeeded). -/
theorem claim7_write_error_amended (sysOff : Int) (dtstamp : String)
    (dates : List (List MLB_API.ApiGame)) (msg : String)
    (games : List MLB_PostSeason.PSGame)
    (h : (MLB_PostSeason.generate_ics_content dtstamp games).isSome = true) :
    MLB_API.save_ics_file sysOff dtstamp dates (Except.error msg) = false ∧
    MLB_PostSeason.update_ics_file_write dtstamp games (Except.error msg) =
      Except.error msg := by
  constructor
  · unfold MLB_API.save_ics_file
    cases MLB_API.generate_ics_content sysOff dtstamp dates <;> rfl
  · unfold MLB_PostSeason.update_ics_file_write
    obtain ⟨c, hc⟩ := Option.isSome_iff_exists.mp h
    rw [hc]

/-- Claim C7 witness: a failing write on a renderable batch — boolean
`false` from `save_ics_file`, a propagated exception from the
`update_ics_file` write step. -/
theorem claim7_write_error_amended_witness :
    MLB_API.save_ics_file 0 "20251001T120000Z" [] (Except.error "disk full") = false ∧
    MLB_PostSeason.update_ics_file_write "20251001T120000Z" [psNoDatetime]
      (Except.error "disk full") = Except.error "disk full" :=
  claim7_write_error_amended 0 "20251001T120000Z" [] "disk full" [psNoDatetime]
    (by decide)

/-- Claim C8: rendering zero games yields exactly the fixed
`VCALENDAR` envelope — the `BEGIN:VCALENDAR` line, the fixed
product/version/header lines, a blank line and `END:VCALENDAR` — in
both variants, with no `BEGIN:VEVENT` line among them, whatever the
render-time clock reads. -/
theorem claim8_empty_render (dtstamp : String) (sysOff : Int) :
    MLB_PostSeason.generate_ics_content dtstamp [] =
      some ("BEGIN:VCALENDAR\nVERSION:2.0\nPRODID:-//MLB 2025 Postseason Auto-Updated//EN\nCALSCALE:GREGORIAN\nMETHOD:PUBLISH\nX-WR-CALNAME:MLB 2025 Postseason\nX-WR-TIMEZONE:UTC\nX-PUBLISHED-TTL:PT1H\n\nEND:VCALENDAR") ∧
    MLB_API.generate_ics_content sysOff dtstamp [] =
      some ("BEGIN:VCALENDAR\nVERSION:2.0\nPRODID:-//MLB 2025 Postseason Auto-Updated//EN\nCALSCALE:GREGORIAN\nMETHOD:PUBLISH\nX-WR-CALNAME:MLB 2025 Postseason\nX-WR-TIMEZONE:UTC\nX-PUBLISHED-TTL:PT1H\n\nEND:VCALENDAR") ∧
    ((icsHeaderLines ++ icsFooterLines).map renderLine).all
      (fun l => l ≠ "BEGIN:VEVENT") = true :=
  ⟨rfl, rfl, by decide⟩

/-- Claim C9 counterexample: with `startTimeTBD` and the offset-form
`gameDate` `2025-10-24T22:00:00-04:00` (an instant on October 25 UTC),
the resolver advances a day and sets 00:08 in the timestamp's own
`-04:00` zone, yielding `20251025T040800Z` — not 00:08:00 UTC on the
day after the instant, which would be `20251026T000800Z`. -/
theorem claim9_tbd_offset_counterexample :
    MLB_API.get_game_date_time 0 MLB_API.exampleGameTbdOffset =
      ("20251025T040800Z", "20251025T070800Z") ∧
    ("20251025T040800Z" : String) ≠ "20251026T000800Z" := by decide

/-- Claim C9 (amended): for a game with `startTimeTBD = true` and a
valid Z-suffixed `gameDate`, the resolved start is 00:08:00 UTC on the
UTC calendar day after the `gameDate` instant, with end = start + 3 h;
and the resolver reads nothing but `startTimeTBD` and `gameDate` — two
games agreeing on those two fields resolve identically, whatever their
team names.  (For non-UTC offset forms, the 00:08 is set in the
timestamp's own zone instead, as the counterexample shows.) -/
theorem claim9_tbd_nextday_amended (sysOff : Int) (g g' : MLB_API.ApiGame)
    (dt : DateTime) (htbd : g.startTimeTBD = true)
    (hgd : g.gameDate = .zForm dt) (hv : validDT dt = true)
    (h1 : g'.startTimeTBD = g.startTimeTBD) (h2 : g'.gameDate = g.gameDate) :
    MLB_API.get_game_date_time sysOff g =
      (icsStamp (nextDay0008 (epochOfDT dt)),
       icsStamp (nextDay0008 (epochOfDT dt) + 10800)) ∧
    MLB_API.get_game_date_time sysOff g' = MLB_API.get_game_date_time sysOff g := by
  constructor
  · simp only [MLB_API.get_game_date_time, MLB_API.get_game_date_time_epoch, htbd, hgd]
    simp [fromisoParse, hv]
    have he : (epochOfDT dt + 86400).ediv 86400 * 86400 + 480 =
        nextDay0008 (epochOfDT dt) := by
      have h3 : (epochOfDT dt + 86400).ediv 86400 = (epochOfDT dt).ediv 86400 + 1 := by
        have h4 := Int.add_mul_ediv_right (epochOfDT dt) 1
          (show (86400 : Int) ≠ 0 by norm_num)
        simpa using h4
      unfold nextDay0008
      rw [h3]
      ring
    rw [he]
    exact ⟨rfl, rfl⟩
  · simp only [MLB_API.get_game_date_time, MLB_API.get_game_date_time_epoch, h1, h2]

/-- Claim C9 witness: `2025-10-24T07:33:00Z` with `startTimeTBD`
resolves to 00:08 UTC on October 25 under any system timezone, and a
game differing only in teams and venue resolves identically. -/
theorem claim9_tbd_nextday_amended_witness :
    MLB_API.get_game_date_time 5 MLB_API.exampleGameTbdZ =
      ("20251025T000800Z", "20251025T030800Z") ∧
    MLB_API.get_game_date_time 5 MLB_API.exampleGameTbdZOther =
      MLB_API.get_game_date_time 5 MLB_API.exampleGameTbdZ := by
  have h := claim9_tbd_nextday_amended 5 MLB_API.exampleGameTbdZ
    MLB_API.exampleGameTbdZOther ⟨2025, 10, 24, 7, 33, 0⟩ rfl rfl (by decide) rfl rfl
  exact ⟨h.1.trans (by decide), h.2⟩

/-- Claim C10: for a fixed input collection, two renderer invocations
differ at most in their `DTSTAMP` lines: masking the variable part of
every `DTSTAMP` line makes the outputs of both variants equal,
line-for-line, whatever the two clock readings were. -/
theorem claim10_deterministic_modulo_dtstamp (d1 d2 : String)
    (games : List MLB_PostSeason.PSGame) (sysOff : Int)
    (dates : List (List MLB_API.ApiGame)) :
    (MLB_PostSeason.generate_ics_content_lines d1 games).map (List.map maskDtstamp) =
      (MLB_PostSeason.generate_ics_content_lines d2 games).map (List.map maskDtstamp) ∧
    (MLB_API.generate_ics_content_lines sysOff d1 dates).map (List.map maskDtstamp) =
      (MLB_API.generate_ics_content_lines sysOff d2 dates).map (List.map maskDtstamp) := by
  constructor
  · unfold MLB_PostSeason.generate_ics_content_lines
    exact option_mask_envelope (MLB_PostSeason.psAllGameLines_mask d1 d2 games)
  · unfold MLB_API.generate_ics_content_lines
    exact option_mask_envelope (MLB_API.apiAllLines_mask sysOff d1 d2 dates)
